import Mathlib

/-!
Verification development for the sgp4-rust repository (src/src/sgp4.rs,
src/src/utils.rs, src/src/constants.rs).

The TLE parsing front end (`twoline2rv`, src/src/sgp4.rs lines 148-199) is
embedded as executable functions over exact rationals: every finite `f64`
value produced by the source's decimal-literal parsing is represented by the
rational it denotes, so the structural behaviour of the parser (which inputs
succeed, which panic, and which exact values are produced before any
floating-point rounding) is captured faithfully.  Unit conversions that
involve pi (`radians`, the `xpdotp` divisor) are expressed over the reals.

Parts of the repository that `twoline2rv` calls but that are absent from
src/ (`sgp4init`, `days2mdh`, `jday`, the Kepler solve of the propagator)
are modelled from the spec; each such definition carries a doc comment
starting with "Modelled from the spec:".
-/

/-- ASCII decimal digit test, as used by Rust's numeric `FromStr`
implementations (bytes 0x30-0x39). -/
def isDig (c : Char) : Bool := 48 ≤ c.toNat && c.toNat ≤ 57

/-- Numeric value of an ASCII digit character. -/
def digitVal (c : Char) : ℕ := c.toNat - 48

/-- Value of a digit string read in base 10. -/
def digitsToNat (ds : List Char) : ℕ :=
  ds.foldl (fun acc c => 10 * acc + digitVal c) 0

/-- Consume one optional leading sign character; returns `true` when the
sign was `-`.  Mirrors the sign handling shared by Rust's integer and float
`FromStr` grammars. -/
def parseOptSign : List Char → Bool × List Char
  | [] => (false, [])
  | c :: r =>
    if c = '+' then (false, r)
    else if c = '-' then (true, r)
    else (false, c :: r)

/-- Optional exponent suffix of Rust's `f64` grammar: either the end of the
input, or `e`/`E`, an optional sign and one or more digits consuming the
rest of the input.  `mant` is the already-decoded mantissa. -/
def parseExpPart (mant : ℚ) (cs : List Char) : Option ℚ :=
  match cs with
  | [] => some mant
  | c :: rest =>
    if c = 'e' ∨ c = 'E' then
      let (eneg, r) := parseOptSign rest
      let ds := r.takeWhile isDig
      let r2 := r.dropWhile isDig
      if ds.isEmpty ∨ ¬ r2.isEmpty then none
      else
        some (mant * (10 : ℚ) ^ (if eneg then -(digitsToNat ds : ℤ) else (digitsToNat ds : ℤ)))
    else none

/-- Unsigned part of Rust's `f64` grammar: `Digits '.'? Digits? Exp?` or
`'.' Digits Exp?` (at least one mantissa digit is required). -/
def parseUnsignedF64 (cs : List Char) : Option ℚ :=
  let ds1 := cs.takeWhile isDig
  let r1 := cs.dropWhile isDig
  match r1 with
  | '.' :: r2 =>
    let ds2 := r2.takeWhile isDig
    let r3 := r2.dropWhile isDig
    if ds1.isEmpty ∧ ds2.isEmpty then none
    else parseExpPart ((digitsToNat ds1 : ℚ) + (digitsToNat ds2 : ℚ) / (10 : ℚ) ^ ds2.length) r3
  | _ =>
    if ds1.isEmpty then none
    else parseExpPart (digitsToNat ds1 : ℚ) r1

/-- Model of `str::parse::<f64>()`: optional sign followed by the unsigned
number grammar; no surrounding whitespace is accepted.  Finite values are
represented exactly as rationals; the non-finite literals `inf`, `infinity`
and `nan` fall outside the rational value model and are treated as
unrepresentable (`none`) - no claim below depends on them. -/
def parseF64 (s : String) : Option ℚ :=
  let (neg, cs) := parseOptSign s.toList
  (parseUnsignedF64 cs).map (fun q => if neg then -q else q)

/-- Model of `str::parse::<u64>()`: optional `+`, one or more digits, value
below 2^64; a leading `-` or any non-digit is a parse error. -/
def parseU64 (s : String) : Option ℕ :=
  let cs := match s.toList with
    | '+' :: r => r
    | r => r
  if cs.isEmpty then none
  else if cs.all isDig then
    let v := digitsToNat cs
    if v < 2 ^ 64 then some v else none
  else none

/-- Model of `str::parse::<i32>()`: optional sign, one or more digits,
value within the `i32` range. -/
def parseI32 (s : String) : Option ℤ :=
  let (neg, cs) := parseOptSign s.toList
  if cs.isEmpty then none
  else if cs.all isDig then
    let v : ℤ := if neg then -(digitsToNat cs : ℤ) else (digitsToNat cs : ℤ)
    if -(2 ^ 31) ≤ v ∧ v ≤ 2 ^ 31 - 1 then some v else none
  else none

/-- Model of `str::trim`: drop leading and trailing whitespace
characters (the TLE fields in question only ever carry ASCII spaces). -/
def trimChars (cs : List Char) : List Char :=
  ((cs.dropWhile Char.isWhitespace).reverse.dropWhile Char.isWhitespace).reverse

/-- Model of the byte-range slice `s[a..b]` used on the TLE lines.  TLE
lines are ASCII, so byte indices coincide with character indices; an
out-of-range slice is a Rust panic, modelled as `none`. -/
def sliceChars (s : String) (a b : ℕ) : Option String :=
  if a ≤ b ∧ b ≤ s.length then some (String.mk ((s.toList.drop a).take (b - a)))
  else none

/-- The `Classification` enum of src/src/sgp4.rs lines 13-18. -/
inductive Classification where
  | Unclassified
  | Classified
deriving DecidableEq

/-- The function `Classification::from` of src/src/sgp4.rs lines 20-28 (named `fromChar`
here because `from` is a reserved word in Lean).  The source is a `match`
on the character; its meaning is this if-chain. -/
def Classification.fromChar (c : Char) : Option Classification :=
  if c = 'U' then some Classification.Unclassified
  else if c = 'C' then some Classification.Classified
  else none

/-- The `PropagationError` enum of src/src/sgp4.rs lines 30-36. -/
inductive PropagationError where
  | InvalidElements
  | NegativeMeanMotion
  | EccentricityOutOfRange
  | NegativeSemilatusRectum
  | OrbitalDecay
deriving DecidableEq

/-- Raw field values decoded from TLE line 1 by `twoline2rv`
(src/src/sgp4.rs lines 155-170), before the unit adjustments of lines
187-188.  `ndot` is the parsed value of columns 33-43; `nddot` and `bstar`
are the values of `f64::powi(mantissa * 10.0, exponent)` exactly as the
source computes them (lines 162-169). -/
structure Line1Fields where
  satnum : ℕ
  classification : Option Classification
  intldesg : String
  epochyr : ℕ
  epochdays : ℚ
  ndot : ℚ
  nddot : ℚ
  bstar : ℚ
  elnum : ℕ
deriving DecidableEq

/-- Raw field values decoded from TLE line 2 by `twoline2rv`
(src/src/sgp4.rs lines 173-181).  The angle fields and the mean motion are
kept in their as-serialized units (degrees, revolutions/day); the source's
conversions (`radians`, the division by `xpdotp`) are applied in
`buildSatRec` below.  `ecco` is the value the source stores: the parse of
`"0."` prepended to the trimmed columns 26-33 (line 175). -/
structure Line2Fields where
  inclo_deg : ℚ
  nodeo_deg : ℚ
  ecco : ℚ
  argpo_deg : ℚ
  mo_deg : ℚ
  no_kozai_revday : ℚ
  revnum : ℕ
deriving DecidableEq

/-- Field extraction from TLE line 1, mirroring src/src/sgp4.rs lines
155-170 in source order.  Every numeric decode in the source ends in
`.unwrap()`, so a failed parse (or an out-of-range slice) aborts the whole
call; that is modelled by this function returning `none`.  The
classification column (line 156) is stored as an `Option` without
unwrapping. -/
def parseLine1 (l : String) : Option Line1Fields :=
  match (sliceChars l 2 7).bind parseU64 with
  | none => none
  | some satnum =>
  match l.toList.get? 7 with
  | none => none
  | some c7 =>
  let classific := Classification.fromChar c7
  match sliceChars l 9 17 with
  | none => none
  | some intlS =>
  let intldesg := String.mk (trimChars intlS.toList)
  match (sliceChars l 18 20).bind parseU64 with
  | none => none
  | some epochyr =>
  match (sliceChars l 20 32).bind parseF64 with
  | none => none
  | some epochdays =>
  match (sliceChars l 33 43).bind parseF64 with
  | none => none
  | some ndot =>
  match (sliceChars l 44 50).bind parseF64 with
  | none => none
  | some nddotMant =>
  match (sliceChars l 50 52).bind parseI32 with
  | none => none
  | some nddotExp =>
  let nddot := (nddotMant * 10) ^ nddotExp
  match (sliceChars l 53 59).bind parseF64 with
  | none => none
  | some bstarMant =>
  match (sliceChars l 59 61).bind parseI32 with
  | none => none
  | some bstarExp =>
  let bstar := (bstarMant * 10) ^ bstarExp
  match (sliceChars l 64 68).bind parseU64 with
  | none => none
  | some elnum =>
  some ⟨satnum, classific, intldesg, epochyr, epochdays, ndot, nddot, bstar, elnum⟩

/-- Field extraction from TLE line 2, mirroring src/src/sgp4.rs lines
173-181 in source order.  The eccentricity decode follows line 175: the
seven-character slice is trimmed and `"0."` is prepended before parsing
(`'0' :: '.' :: chars` is that concatenation). -/
def parseLine2 (l : String) : Option Line2Fields :=
  match (sliceChars l 8 16).bind parseF64 with
  | none => none
  | some inc =>
  match (sliceChars l 17 25).bind parseF64 with
  | none => none
  | some node =>
  match sliceChars l 26 33 with
  | none => none
  | some eccS =>
  match parseF64 (String.mk ('0' :: '.' :: trimChars eccS.toList)) with
  | none => none
  | some ecco =>
  match (sliceChars l 34 42).bind parseF64 with
  | none => none
  | some argp =>
  match (sliceChars l 43 51).bind parseF64 with
  | none => none
  | some mo =>
  match (sliceChars l 53 63).bind parseF64 with
  | none => none
  | some no =>
  match (sliceChars l 63 68).bind parseU64 with
  | none => none
  | some rev =>
  some ⟨inc, node, ecco, argp, mo, no, rev⟩

/-- Outcome of a call whose source both unwraps parse results (a failure is
a Rust panic) and, per the spec, is supposed to be able to report a
`PropagationError`.  The `err` constructor exists so that "reports an
error value to the caller" is statable; the embedding of the source never
produces it, because `twoline2rv` has no return path carrying an error. -/
inductive ParseOutcome (α : Type) where
  | ok : α → ParseOutcome α
  | err : PropagationError → ParseOutcome α
  | panicked : ParseOutcome α
deriving DecidableEq

/-- The parsing portion of `twoline2rv` (src/src/sgp4.rs lines 148-181):
line 1 is decoded, then line 2; any failed field decode is an unwrap panic.
`preprocess_tle` (lines 113-115) is the identity and is elided. -/
def twoline2rvParse (l1 l2 : String) : ParseOutcome (Line1Fields × Line2Fields) :=
  match parseLine1 l1, parseLine2 l2 with
  | some f1, some f2 => ParseOutcome.ok (f1, f2)
  | _, _ => ParseOutcome.panicked
/-- The constant `DAY2MIN` of src/src/constants.rs line 17. -/
noncomputable def DAY2MIN : ℝ := 1440

/-- The constant `TWOPI` of src/src/constants.rs line 27. -/
noncomputable def TWOPI : ℝ := 2 * Real.pi

/-- The local `let xpdotp = DAY2MIN / TWOPI` of src/src/sgp4.rs line 149, the
revolutions/day to radians/minute divisor. -/
noncomputable def xpdotp : ℝ := DAY2MIN / TWOPI

/-- The function `radians` of src/src/utils.rs lines 5-7. -/
noncomputable def radians (deg : ℝ) : ℝ := deg * Real.pi / 180

/-- Modelled from the spec: `days2mdh` and `jday` are called by
`twoline2rv` (src/src/sgp4.rs lines 191-192) but are absent from src/.
Per spec section 4.1 the expanded four-digit year is combined with the
fractional day-of-year into a split Julian date (integer day part plus
fractional part).  `julianDayJan0` is the standard Julian date of day 0.0
of the given Gregorian year (the month-1 instance of the usual `jday`
formula). -/
def julianDayJan0 (year : ℕ) : ℚ :=
  ((367 * year : ℕ) : ℚ) - ((7 * year / 4 : ℕ) : ℚ) + 30 + (1721013.5 : ℚ)

/-- Modelled from the spec: the split Julian date produced by the missing
`days2mdh`/`jday` pair - whole-day part and fractional-day part of
`year` + `epochdays`. -/
def epochSplitJD (year : ℕ) (epochdays : ℚ) : ℚ × ℚ :=
  (julianDayJan0 year + (⌊epochdays⌋ : ℚ), epochdays - (⌊epochdays⌋ : ℚ))

/-- The fields of `SatRec` (src/src/utils.rs lines 74-128) that
`twoline2rv` populates.  Quantities that never involve pi are carried as
exact rationals; quantities converted with `radians` or `xpdotp` are
reals. -/
structure SatRec where
  satnum : ℕ
  classification : Option Classification
  intldesg : String
  epochyr : ℕ
  epochdays : ℚ
  ndot : ℝ
  nddot : ℝ
  bstar : ℚ
  elnum : ℕ
  inclo : ℝ
  nodeo : ℝ
  ecco : ℚ
  argpo : ℝ
  mo : ℝ
  no_kozai : ℝ
  revnum : ℕ
  jdsatepoch : ℚ
  jdsatepochf : ℚ

/-- The value-building part of `twoline2rv` (src/src/sgp4.rs lines
173-192): unit conversions applied to the raw line-1/line-2 fields
(`radians` on the four angle fields, division by `xpdotp` for the mean
motion at line 180, the `ndot`/`nddot` unit adjustments of lines 187-188),
the epoch-year expansion of line 184 and the split Julian date of lines
191-192. -/
noncomputable def buildSatRec (f1 : Line1Fields) (f2 : Line2Fields) : SatRec :=
  let year : ℕ := f1.epochyr + (if f1.epochyr < 57 then 2000 else 1900)
  let jd := epochSplitJD year f1.epochdays
  { satnum := f1.satnum
    classification := f1.classification
    intldesg := f1.intldesg
    epochyr := f1.epochyr
    epochdays := f1.epochdays
    ndot := (f1.ndot : ℝ) / (xpdotp * DAY2MIN)
    nddot := (f1.nddot : ℝ) / (xpdotp * DAY2MIN ^ 2)
    bstar := f1.bstar
    elnum := f1.elnum
    inclo := radians (f2.inclo_deg : ℝ)
    nodeo := radians (f2.nodeo_deg : ℝ)
    ecco := f2.ecco
    argpo := radians (f2.argpo_deg : ℝ)
    mo := radians (f2.mo_deg : ℝ)
    no_kozai := (f2.no_kozai_revday : ℝ) / xpdotp
    revnum := f2.revnum
    jdsatepoch := jd.1
    jdsatepochf := jd.2 }

/-- The `WGSModel` enum of src/src/utils.rs lines 13-19. -/
inductive WGSModel where
  | WGS_72_LOW_PRECISION
  | WGS_72
  | WGS_84
deriving DecidableEq

/-- The `GravitationalConstants` record of src/src/utils.rs lines 21-30. -/
structure GravitationalConstants where
  tumin : ℝ
  mu : ℝ
  radiusearthkm : ℝ
  xke : ℝ
  j2 : ℝ
  j3 : ℝ
  j4 : ℝ
  j3oj2 : ℝ

/-- The function `get_grav_c` of src/src/utils.rs lines 32-72.  The source matches on the
model to produce the tuple `(mu, rad, xke, j2, j3, j4)` and then builds the
record with `tumin = 1/xke` and `j3oj2 = j3/j2`; the match is pushed into
the record construction here, which builds the identical value in each
arm. -/
noncomputable def get_grav_c (model : WGSModel) : GravitationalConstants :=
  match model with
  | WGSModel.WGS_72 =>
    let mu : ℝ := 398600.8
    let rad : ℝ := 6378.135
    let xke : ℝ := 60 / Real.sqrt (rad ^ 3 / mu)
    let j2 : ℝ := 0.001082616
    let j3 : ℝ := -0.00000253881
    let j4 : ℝ := -0.00000165597
    ⟨1 / xke, mu, rad, xke, j2, j3, j4, j3 / j2⟩
  | WGSModel.WGS_84 =>
    let mu : ℝ := 398600.5
    let rad : ℝ := 6378.137
    let xke : ℝ := 60 / Real.sqrt (rad ^ 3 / mu)
    let j2 : ℝ := 0.00108262998905
    let j3 : ℝ := -0.00000253215306
    let j4 : ℝ := -0.00000161098761
    ⟨1 / xke, mu, rad, xke, j2, j3, j4, j3 / j2⟩
  | WGSModel.WGS_72_LOW_PRECISION =>
    let mu : ℝ := 398600.79964
    let rad : ℝ := 6378.135
    let xke : ℝ := 0.0743669161
    let j2 : ℝ := 0.001082616
    let j3 : ℝ := -0.00000253881
    let j4 : ℝ := -0.00000165597
    ⟨1 / xke, mu, rad, xke, j2, j3, j4, j3 / j2⟩

/-- Outcome of the (missing) `sgp4init` call: success, one of the
physics-domain failures of the error taxonomy, or the explicit
"deep-space unsupported" report of spec section 4.2 step 5. -/
inductive InitOutcome where
  | ok
  | physicsError : PropagationError → InitOutcome
  | deepSpaceUnsupported
deriving DecidableEq

/-- Modelled from the spec: the geometry-validation and regime-
classification core of `sgp4init` (called at src/src/sgp4.rs line 196 but
absent from src/).  Spec section 4.2 steps 4-5: fail with
`EccentricityOutOfRange` when eccentricity is below 0 or at least 1, with
`NegativeMeanMotion` when the corrected mean motion is nonpositive, with
`NegativeSemilatusRectum` when semi-major-axis times (1 - e^2) is
nonpositive; then compute the orbital period 2*pi over the corrected mean
motion (minutes) and report the deep-space regime (period at least 225
minutes) as unsupported instead of initializing it. -/
noncomputable def initCore (ecc no_unkozai a : ℝ) : InitOutcome :=
  if 1 ≤ ecc ∨ ecc < 0 then InitOutcome.physicsError PropagationError.EccentricityOutOfRange
  else if no_unkozai ≤ 0 then InitOutcome.physicsError PropagationError.NegativeMeanMotion
  else if a * (1 - ecc ^ 2) ≤ 0 then InitOutcome.physicsError PropagationError.NegativeSemilatusRectum
  else if 225 ≤ TWOPI / no_unkozai then InitOutcome.deepSpaceUnsupported
  else InitOutcome.ok

/-- Modelled from the spec: the semi-major axis implied by Kepler's third
law for mean motion `n` (spec section 4.2 step 1). -/
noncomputable def semiMajorKepler (xke n : ℝ) : ℝ := (xke / n) ^ ((2 : ℝ) / 3)

/-- Modelled from the spec: the Kozai-to-Brouwer mean-motion conversion of
spec section 4.2 step 1 - remove the first-order J2 secular correction,
solved by one corrective pass through the Kepler-third-law semi-major
axis.  The spec fixes the shape (one corrective pass), not the
coefficients; the standard first-order correction is used. -/
noncomputable def unkozai (g : GravitationalConstants) (ecco inclo no_kozai : ℝ) : ℝ :=
  let ak := semiMajorKepler g.xke no_kozai
  let d1 := 0.75 * g.j2 * (3 * Real.cos inclo ^ 2 - 1) / Real.sqrt ((1 - ecco ^ 2) ^ 3)
  let del := d1 / ak ^ 2
  let adel := ak * (1 - del ^ 2 - del * (1 / 3 + 134 * del ^ 2 / 81))
  let delp := d1 / adel ^ 2
  no_kozai / (1 + delp)

/-- Modelled from the spec: the `sgp4init` entry invoked by `twoline2rv`
(src/src/sgp4.rs line 196), reduced to the part the claims concern -
Kozai correction, geometry validation and regime classification over the
parsed record. -/
noncomputable def sgp4initModel (g : GravitationalConstants) (r : SatRec) : InitOutcome :=
  let nounk := unkozai g (r.ecco : ℝ) r.inclo r.no_kozai
  initCore (r.ecco : ℝ) nounk (semiMajorKepler g.xke nounk)

/-- The fields of the `SGP4` struct (src/src/sgp4.rs lines 68-80) other
than `satrec`, which `twoline2rv` populates and which is modelled as part
of the returned value. -/
structure SGP4 where
  model : WGSModel
  use_afspc_mode : Bool
  grav_const : GravitationalConstants
  use_deep_space : Bool
  x2ox3 : ℝ
  jdstart_full : ℝ
  jdstop_full : ℝ

/-- The constructor `SGP4::new` of src/src/sgp4.rs lines 99-111. -/
noncomputable def SGP4.new (model : WGSModel) (use_afspc_mode : Bool) : SGP4 :=
  ⟨model, use_afspc_mode, get_grav_c model, false, 2 / 3, 0, 0⟩

/-- The call `twoline2rv` (src/src/sgp4.rs lines 148-199) end to end: the parsing
stage from the source composed with the spec-modelled initialization.  The
state-vector computation lives inside the missing `sgp4init`; the call is
modelled by the populated record together with its initialization
outcome. -/
noncomputable def twoline2rvModel (s : SGP4) (l1 l2 : String) :
    ParseOutcome (SatRec × InitOutcome) :=
  match twoline2rvParse l1 l2 with
  | ParseOutcome.ok (f1, f2) =>
    let r := buildSatRec f1 f2
    ParseOutcome.ok (r, sgp4initModel s.grav_const r)
  | ParseOutcome.err e => ParseOutcome.err e
  | ParseOutcome.panicked => ParseOutcome.panicked

/-- Modelled from the spec: the convergence tolerance of the Kepler solve
(spec section 4.3 step 3), about 1e-12 in angle. -/
def kepTol : ℚ := 1 / 10 ^ 12

/-- Modelled from the spec: one Newton step for Kepler's equation
E - e*sin(E) = M (spec section 4.3 step 3).  The propagator is absent from
src/; sine and cosine are abstracted as function parameters so the
iteration structure is stated independently of any particular
floating-point trigonometry. -/
def kepNext (sinf cosf : ℚ → ℚ) (ecc m e0 : ℚ) : ℚ :=
  e0 + (m - (e0 - ecc * sinf e0)) / (1 - ecc * cosf e0)

/-- Modelled from the spec: the capped Kepler iteration.  `fuel` is the
remaining iteration budget (10 at the top-level call); the result pairs
the final iterate with the number of iterations performed.  When the
tolerance is met the loop stops; when the budget runs out the last
iterate is kept. -/
def keplerGo (sinf cosf : ℚ → ℚ) (ecc m : ℚ) : ℕ → ℚ → ℚ × ℕ
  | 0, e0 => (e0, 0)
  | fuel + 1, e0 =>
    let e1 := kepNext sinf cosf ecc m e0
    if |e1 - e0| < kepTol then (e1, 1)
    else
      let r := keplerGo sinf cosf ecc m fuel e1
      (r.1, r.2 + 1)

/-- Modelled from the spec: the Kepler solve of the propagator (spec
section 4.3 step 3), seeded from the corrected mean anomaly `m`, capped at
10 iterations, never reporting an error: the final iterate is returned
even when the cap is reached without convergence. -/
def keplerSolve (sinf cosf : ℚ → ℚ) (ecc m : ℚ) : Except PropagationError (ℚ × ℕ) :=
  Except.ok (keplerGo sinf cosf ecc m 10 m)

/-- A well-formed TLE line 1 whose every fixed-column field parses: catalog
25544, classification `U`, designator `98067A`, epoch year 08, epoch day
264.51782528, first derivative -.00002182, second derivative and drag term
both serialized as mantissa `-11606` with exponent `-4`, element number
0292. -/
def tleLine1 : String :=
  "1 25544U 98067A   08264.51782528 -.00002182 -11606-4 -11606-4 0 02927"

/-- A well-formed TLE line 2 whose every fixed-column field parses:
inclination 051.6400, node 247.4627, eccentricity field `0006703`,
argument of perigee 130.5360, mean anomaly 325.0288, mean motion
15.7212405, revolution number 56353. -/
def tleLine2 : String :=
  "2 25544 051.6400 247.4627 0006703 130.5360 325.0288 015.7212405563537"

/-- Variant of `tleLine1` with the classification column (index 7) holding `X`, a
character that is neither `U` nor `C`. -/
def tleLine1X : String :=
  "1 25544X 98067A   08264.51782528 -.00002182 -11606-4 -11606-4 0 02927"

/-- Variant of `tleLine2` with a non-numeric character `X` inside the eccentricity
columns 26-33. -/
def tleLine2BadEcc : String :=
  "2 25544 051.6400 247.4627 00067X3 130.5360 325.0288 015.7212405563537"

/-- Variant of `tleLine2` with eccentricity columns `50000e9`: every character is
accepted by the float grammar, so the field parses - to 0.50000e9 =
500000000. -/
def tleLine2BigEcc : String :=
  "2 25544 051.6400 247.4627 50000e9 130.5360 325.0288 015.7212405563537"

/-- The raw line-1 fields `parseLine1` produces on `tleLine1`, written in
the exact arithmetic shape the parser builds (sums of digit values over
powers of ten), so the equation `parseLine1 tleLine1 = some tleFields1`
holds definitionally. -/
def tleFields1 : Line1Fields :=
  ⟨25544, some Classification.Unclassified, "98067A", 8,
   264 + 51782528 / 10 ^ 8,
   -(0 + 2182 / 10 ^ 8),
   (-(11606 : ℚ) * 10) ^ (-4 : ℤ),
   (-(11606 : ℚ) * 10) ^ (-4 : ℤ),
   292⟩

/-- Copy of `tleFields1` with the classification stored as `none` - the fields
`parseLine1` produces on `tleLine1X`. -/
def tleFields1X : Line1Fields :=
  ⟨25544, none, "98067A", 8,
   264 + 51782528 / 10 ^ 8,
   -(0 + 2182 / 10 ^ 8),
   (-(11606 : ℚ) * 10) ^ (-4 : ℤ),
   (-(11606 : ℚ) * 10) ^ (-4 : ℤ),
   292⟩

/-- The raw line-2 fields `parseLine2` produces on `tleLine2`. -/
def tleFields2 : Line2Fields :=
  ⟨51 + 6400 / 10 ^ 4, 247 + 4627 / 10 ^ 4, 0 + 6703 / 10 ^ 7,
   130 + 5360 / 10 ^ 4, 325 + 288 / 10 ^ 4, 15 + 7212405 / 10 ^ 7, 56353⟩

/-- The raw line-2 fields `parseLine2` produces on `tleLine2BigEcc`; the
eccentricity decodes to (0 + 50000/10^5)*10^9 = 500000000. -/
def tleFields2Big : Line2Fields :=
  ⟨51 + 6400 / 10 ^ 4, 247 + 4627 / 10 ^ 4, (0 + 50000 / 10 ^ 5) * 10 ^ (9 : ℤ),
   130 + 5360 / 10 ^ 4, 325 + 288 / 10 ^ 4, 15 + 7212405 / 10 ^ 7, 56353⟩

theorem takeWhile_eq_self_of_all {p : Char → Bool} :
    ∀ {l : List Char}, (∀ c ∈ l, p c = true) → l.takeWhile p = l := by
  intro l h
  induction l with
  | nil => rfl
  | cons a t ih =>
    rw [List.takeWhile_cons_of_pos (h a (List.mem_cons_self a t))]
    rw [ih fun c hc => h c (List.mem_cons_of_mem a hc)]

theorem dropWhile_eq_nil_of_all {p : Char → Bool} :
    ∀ {l : List Char}, (∀ c ∈ l, p c = true) → l.dropWhile p = [] := by
  intro l h
  induction l with
  | nil => rfl
  | cons a t ih =>
    rw [List.dropWhile_cons_of_pos (h a (List.mem_cons_self a t))]
    exact ih fun c hc => h c (List.mem_cons_of_mem a hc)

theorem digitVal_le_nine {c : Char} (h : isDig c = true) : digitVal c ≤ 9 := by
  simp only [isDig, Bool.and_eq_true, decide_eq_true_eq] at h
  simp only [digitVal]
  omega

theorem foldl_digits_bound :
    ∀ (ds : List Char) (acc : ℕ), (∀ c ∈ ds, isDig c = true) →
      ds.foldl (fun a c => 10 * a + digitVal c) acc < 10 ^ ds.length * (acc + 1) := by
  intro ds
  induction ds with
  | nil =>
    intro acc _
    simp only [List.foldl_nil, List.length_nil, pow_zero, one_mul]
    exact Nat.lt_succ_self acc
  | cons a t ih =>
    intro acc h
    have hd : digitVal a ≤ 9 := digitVal_le_nine (h a (List.mem_cons_self a t))
    have hrec := ih (10 * acc + digitVal a) fun c hc => h c (List.mem_cons_of_mem a hc)
    simp only [List.foldl_cons, List.length_cons]
    calc t.foldl (fun a c => 10 * a + digitVal c) (10 * acc + digitVal a)
        < 10 ^ t.length * (10 * acc + digitVal a + 1) := hrec
      _ ≤ 10 ^ t.length * (10 * (acc + 1)) :=
        Nat.mul_le_mul_left _ (by omega)
      _ = 10 ^ (t.length + 1) * (acc + 1) := by rw [pow_succ]; ring

theorem digitsToNat_lt {ds : List Char} (h : ∀ c ∈ ds, isDig c = true) :
    digitsToNat ds < 10 ^ ds.length := by
  have hb := foldl_digits_bound ds 0 h
  rw [Nat.zero_add, Nat.mul_one] at hb
  exact hb

theorem parseExpPart_nil (mant : ℚ) : parseExpPart mant [] = some mant := rfl

theorem parseUnsignedF64_zero_dot (ds : List Char) (h : ∀ c ∈ ds, isDig c = true) :
    parseUnsignedF64 ('0' :: '.' :: ds) =
      some ((0 : ℚ) + (digitsToNat ds : ℚ) / 10 ^ ds.length) := by
  have ht : ds.takeWhile isDig = ds := takeWhile_eq_self_of_all h
  have hd : ds.dropWhile isDig = [] := dropWhile_eq_nil_of_all h
  show parseExpPart
      ((digitsToNat ['0'] : ℚ) + (digitsToNat (ds.takeWhile isDig) : ℚ) / 10 ^ (ds.takeWhile isDig).length)
      (ds.dropWhile isDig) = _
  rw [ht, hd, parseExpPart_nil]
  rfl

theorem parseF64_zero_dot (ds : List Char) (h : ∀ c ∈ ds, isDig c = true) :
    parseF64 (String.mk ('0' :: '.' :: ds)) =
      some ((0 : ℚ) + (digitsToNat ds : ℚ) / 10 ^ ds.length) := by
  have h0 : parseF64 (String.mk ('0' :: '.' :: ds)) =
      (parseUnsignedF64 ('0' :: '.' :: ds)).map (fun q => if (false : Bool) = true then -q else q) := rfl
  rw [h0, parseUnsignedF64_zero_dot ds h]
  rfl

theorem keplerGo_count_le (sinf cosf : ℚ → ℚ) (ecc m : ℚ) :
    ∀ (fuel : ℕ) (e0 : ℚ), (keplerGo sinf cosf ecc m fuel e0).2 ≤ fuel := by
  intro fuel
  induction fuel with
  | zero => intro e0; exact Nat.le_refl 0
  | succ n ih =>
    intro e0
    show (if |kepNext sinf cosf ecc m e0 - e0| < kepTol
        then (kepNext sinf cosf ecc m e0, 1)
        else ((keplerGo sinf cosf ecc m n (kepNext sinf cosf ecc m e0)).1,
              (keplerGo sinf cosf ecc m n (kepNext sinf cosf ecc m e0)).2 + 1)).2 ≤ n + 1
    split
    · exact Nat.succ_le_succ (Nat.zero_le n)
    · exact Nat.succ_le_succ (ih _)

/-- C1 (counterexample): at a concrete TLE pair whose eccentricity columns
hold a non-numeric character, the parsing operation does not report
`InvalidElements` to the caller - it aborts by a Rust panic (the source
unwraps every parse result), so the claim "a failed field parse is
reported as a terminal InvalidElements" is false on this input. -/
theorem twoline2rvParse_badEcc_not_invalidElements :
    twoline2rvParse tleLine1 tleLine2BadEcc ≠ ParseOutcome.err PropagationError.InvalidElements ∧
    twoline2rvParse tleLine1 tleLine2BadEcc = ParseOutcome.panicked := by
  have h0 : twoline2rvParse tleLine1 tleLine2BadEcc = ParseOutcome.panicked := rfl
  refine ⟨?_, h0⟩
  intro h
  rw [h0] at h
  exact ParseOutcome.noConfusion h

/-- C1 (amended): `twoline2rv` never reports a `PropagationError` value to
the caller for any input pair - its parsing stage has no error-carrying
return path - and a fixed-column field that fails to decode (here a
non-numeric character in the eccentricity columns) makes the call abort by
an unwrap panic, producing no record. -/
theorem twoline2rvParse_failure_panics :
    (∀ (l1 l2 : String) (e : PropagationError), twoline2rvParse l1 l2 ≠ ParseOutcome.err e) ∧
    twoline2rvParse tleLine1 tleLine2BadEcc = ParseOutcome.panicked := by
  constructor
  · intro l1 l2 e
    unfold twoline2rvParse
    cases parseLine1 l1 <;> cases parseLine2 l2 <;> simp
  · rfl

/-- C2 (code evaluation): the exponential-form fields are decoded as
`f64::powi(mantissa * 10.0, exponent)`, i.e. `(mantissa * 10) ^ exponent`.
On the concrete line 1 whose columns 44-52 hold mantissa `-11606` and
exponent `-4`, the stored value is `(-116060)^(-4)` - which differs from
the value `mantissa-with-implicit-decimal-point * 10 ^ exponent`
(= -0.11606e-4) required by the claim and the TLE format. -/
theorem nddot_bstar_decode_powi :
    parseLine1 tleLine1 = some tleFields1 ∧
    tleFields1.nddot = ((-11606 : ℚ) * 10) ^ (-4 : ℤ) ∧
    tleFields1.bstar = ((-11606 : ℚ) * 10) ^ (-4 : ℤ) ∧
    ((-11606 : ℚ) * 10) ^ (-4 : ℤ) ≠ -(11606 / 10 ^ 5 : ℚ) * 10 ^ (-4 : ℤ) := by
  refine ⟨rfl, rfl, rfl, ?_⟩
  norm_num

/-- C7: the Kepler solve performs at most 10 iterations, uses the 1e-12
angle tolerance, and never reports an error - the final iterate is
returned even when the iteration cap is reached without convergence.
Stated for every abstract sine/cosine evaluator and every eccentricity and
corrected mean anomaly (the iteration is seeded from the mean anomaly
`m`). -/
theorem keplerSolve_capped_no_error :
    (∀ (sinf cosf : ℚ → ℚ) (ecc m : ℚ),
      (keplerGo sinf cosf ecc m 10 m).2 ≤ 10 ∧
      keplerSolve sinf cosf ecc m = Except.ok (keplerGo sinf cosf ecc m 10 m)) ∧
    kepTol = 1 / 10 ^ 12 :=
  ⟨fun sinf cosf ecc m => ⟨keplerGo_count_le sinf cosf ecc m 10 m, rfl⟩, rfl⟩

/-- C8: parsing is deterministic and, in this pure embedding,
side-effect-free: identically-constructed `SGP4` values are equal, and two
calls of `twoline2rv` on them with the same input lines produce identical
results. -/
theorem twoline2rv_deterministic :
    ∀ (model : WGSModel) (mode : Bool) (l1 l2 : String),
      SGP4.new model mode = SGP4.new model mode ∧
      twoline2rvModel (SGP4.new model mode) l1 l2 = twoline2rvModel (SGP4.new model mode) l1 l2 :=
  fun _ _ _ _ => ⟨rfl, rfl⟩

/-- C9: for every gravity-model variant the constant table satisfies
`tumin = 1/xke` and `j3oj2 = j3/j2`, and for `WGS_72` and `WGS_84` the
value `xke` equals `60 / sqrt(radiusearthkm^3 / mu)`; the table is a pure
function of the variant (it is a Lean function of the variant). -/
theorem get_grav_c_invariants :
    (∀ m : WGSModel,
      (get_grav_c m).tumin = 1 / (get_grav_c m).xke ∧
      (get_grav_c m).j3oj2 = (get_grav_c m).j3 / (get_grav_c m).j2) ∧
    (get_grav_c WGSModel.WGS_72).xke =
      60 / Real.sqrt ((get_grav_c WGSModel.WGS_72).radiusearthkm ^ 3 / (get_grav_c WGSModel.WGS_72).mu) ∧
    (get_grav_c WGSModel.WGS_84).xke =
      60 / Real.sqrt ((get_grav_c WGSModel.WGS_84).radiusearthkm ^ 3 / (get_grav_c WGSModel.WGS_84).mu) := by
  refine ⟨fun m => ?_, rfl, rfl⟩
  cases m <;> exact ⟨rfl, rfl⟩

/-- C10: `Classification::from` returns `Some(Unclassified)` exactly for
`U`, `Some(Classified)` exactly for `C` and `None` for every other
character; and a line 1 whose classification column holds another
character (here `X`) still parses, storing `None`. -/
theorem classification_fromChar_spec :
    (∀ c : Char,
      (Classification.fromChar c = some Classification.Unclassified ↔ c = 'U') ∧
      (Classification.fromChar c = some Classification.Classified ↔ c = 'C') ∧
      (Classification.fromChar c = none ↔ c ≠ 'U' ∧ c ≠ 'C')) ∧
    parseLine1 tleLine1X = some tleFields1X ∧
    tleFields1X.classification = none := by
  refine ⟨fun c => ?_, rfl, rfl⟩
  by_cases hU : c = 'U'
  · subst hU
    exact ⟨by decide, by decide, by decide⟩
  · by_cases hC : c = 'C'
    · subst hC
      exact ⟨by decide, by decide, by decide⟩
    · have hf : Classification.fromChar c = none := by
        unfold Classification.fromChar
        rw [if_neg hU, if_neg hC]
      rw [hf]
      exact ⟨by simp [hU], by simp [hC], by simp [hU, hC]⟩

/-- C3: for every record passing the geometry validation whose derived
orbital period `2*pi / corrected-mean-motion` is at least 225 minutes, the
initialization core classifies the orbit as deep-space and reports it as
deep-space unsupported - an outcome distinct from every physics failure
kind and from successful near-Earth initialization. -/
theorem initCore_deepspace_classification (ecc n a : ℝ)
    (h0 : 0 ≤ ecc) (h1 : ecc < 1) (h2 : 0 < n)
    (h3 : 0 < a * (1 - ecc ^ 2)) (h4 : 225 ≤ TWOPI / n) :
    initCore ecc n a = InitOutcome.deepSpaceUnsupported ∧
    (∀ e, InitOutcome.deepSpaceUnsupported ≠ InitOutcome.physicsError e) ∧
    InitOutcome.deepSpaceUnsupported ≠ InitOutcome.ok := by
  refine ⟨?_, fun e h => InitOutcome.noConfusion h, fun h => InitOutcome.noConfusion h⟩
  have hA : ¬ (1 ≤ ecc ∨ ecc < 0) := by
    rintro (h | h)
    · exact absurd h1 (not_lt.mpr h)
    · exact absurd h0 (not_le.mpr h)
  have hB : ¬ n ≤ 0 := not_le.mpr h2
  have hC : ¬ a * (1 - ecc ^ 2) ≤ 0 := not_le.mpr h3
  unfold initCore
  rw [if_neg hA, if_neg hB, if_neg hC, if_pos h4]

/-- C3 (witness): a concrete valid geometry - circular orbit, unit
semi-major axis, corrected mean motion 1/100 radians per minute, hence a
period of 200*pi > 225 minutes - is classified deep-space unsupported. -/
theorem initCore_deepspace_classification_witness :
    initCore 0 (1 / 100) 1 = InitOutcome.deepSpaceUnsupported ∧
    (∀ e, InitOutcome.deepSpaceUnsupported ≠ InitOutcome.physicsError e) ∧
    InitOutcome.deepSpaceUnsupported ≠ InitOutcome.ok := by
  refine initCore_deepspace_classification 0 (1 / 100) 1 le_rfl one_pos (by norm_num) (by norm_num) ?_
  unfold TWOPI
  have hpi := Real.pi_gt_d6
  rw [div_div_eq_mul_div, div_one]
  nlinarith

/-- C4: parsing normalizes units - the four angle fields are converted
from degrees to radians (multiplication by pi/180), the mean motion is
divided by 1440/(2*pi) to pass from revolutions/day to radians/minute, and
the two mean-motion derivatives are divided by a further factor of 1440
and 1440^2 respectively, putting them in the same per-minute convention. -/
theorem twoline2rv_unit_normalization (l1 l2 : String) (f1 : Line1Fields) (f2 : Line2Fields)
    (_h1 : parseLine1 l1 = some f1) (_h2 : parseLine2 l2 = some f2) :
    (buildSatRec f1 f2).inclo = (f2.inclo_deg : ℝ) * Real.pi / 180 ∧
    (buildSatRec f1 f2).nodeo = (f2.nodeo_deg : ℝ) * Real.pi / 180 ∧
    (buildSatRec f1 f2).argpo = (f2.argpo_deg : ℝ) * Real.pi / 180 ∧
    (buildSatRec f1 f2).mo = (f2.mo_deg : ℝ) * Real.pi / 180 ∧
    (buildSatRec f1 f2).no_kozai = (f2.no_kozai_revday : ℝ) / (1440 / (2 * Real.pi)) ∧
    (buildSatRec f1 f2).ndot = (f1.ndot : ℝ) / (1440 / (2 * Real.pi) * 1440) ∧
    (buildSatRec f1 f2).nddot = (f1.nddot : ℝ) / (1440 / (2 * Real.pi) * 1440 ^ 2) :=
  ⟨rfl, rfl, rfl, rfl, rfl, rfl, rfl⟩

/-- C4 (witness): on the concrete TLE pair, the inclination field
`051.6400` decodes to the raw degree value 51.64 and is stored as
51.64 * pi / 180 radians, and the mean-motion field decodes to 15.7212405
revolutions/day stored divided by 1440/(2*pi). -/
theorem twoline2rv_unit_normalization_witness :
    (buildSatRec tleFields1 tleFields2).inclo = ((51.64 : ℚ) : ℝ) * Real.pi / 180 ∧
    (buildSatRec tleFields1 tleFields2).no_kozai =
      ((15.7212405 : ℚ) : ℝ) / (1440 / (2 * Real.pi)) := by
  have h := twoline2rv_unit_normalization tleLine1 tleLine2 tleFields1 tleFields2 rfl rfl
  have e1 : (51 + 6400 / 10 ^ 4 : ℚ) = 51.64 := by norm_num
  have e2 : (15 + 7212405 / 10 ^ 7 : ℚ) = 15.7212405 := by norm_num
  constructor
  · rw [h.1, show tleFields2.inclo_deg = (51 + 6400 / 10 ^ 4 : ℚ) from rfl, e1]
  · rw [h.2.2.2.2.1, show tleFields2.no_kozai_revday = (15 + 7212405 / 10 ^ 7 : ℚ) from rfl, e2]

/-- C6: the two-digit epoch year is expanded by adding 2000 when it is
below 57 and 1900 otherwise, and the expanded year is combined with the
fractional day-of-year into the split Julian date (integer day part plus
fractional part) stored in the record. -/
theorem twoline2rv_epoch_split_jd (l1 l2 : String) (f1 : Line1Fields) (f2 : Line2Fields)
    (_h1 : parseLine1 l1 = some f1) (_h2 : parseLine2 l2 = some f2) :
    (buildSatRec f1 f2).jdsatepoch =
      (epochSplitJD (f1.epochyr + if f1.epochyr < 57 then 2000 else 1900) f1.epochdays).1 ∧
    (buildSatRec f1 f2).jdsatepochf =
      (epochSplitJD (f1.epochyr + if f1.epochyr < 57 then 2000 else 1900) f1.epochdays).2 :=
  ⟨rfl, rfl⟩

/-- C6 (witness): on the concrete TLE pair the epoch year 08 expands to
2008 (8 < 57), and the split Julian date is built from 2008 and the
fractional day-of-year 264.51782528. -/
theorem twoline2rv_epoch_split_jd_witness :
    (buildSatRec tleFields1 tleFields2).jdsatepoch =
      (epochSplitJD 2008 (264 + 51782528 / 10 ^ 8)).1 ∧
    (buildSatRec tleFields1 tleFields2).jdsatepochf =
      (epochSplitJD 2008 (264 + 51782528 / 10 ^ 8)).2 :=
  twoline2rv_epoch_split_jd tleLine1 tleLine2 tleFields1 tleFields2 rfl rfl

/-- C5 (counterexample): the eccentricity columns are decoded by prepending
`"0."` and calling the full float parser, which accepts exponent notation;
on a line 2 whose eccentricity columns hold `50000e9` the field parses
successfully, yet the stored eccentricity is 0.50000e9 = 500000000, which
is not below 1 - so "parsing success implies eccentricity in [0,1)" is
false on this input. -/
theorem parseLine2_exponent_ecc_breaks_invariant :
    parseLine2 tleLine2BigEcc = some tleFields2Big ∧ (1 : ℚ) ≤ tleFields2Big.ecco := by
  refine ⟨rfl, ?_⟩
  show (1 : ℚ) ≤ (0 + 50000 / 10 ^ 5) * 10 ^ (9 : ℤ)
  norm_num

/-- C5 (amended): when the seven eccentricity columns consist, after
trimming, of decimal digits only - the documented TLE serialization - the
decoded value is the digit string read behind an implicit leading `0.`,
so the eccentricity stored in the parsed record lies in [0, 1). -/
theorem parseLine2_digit_ecc_in_unit_interval (l1 l2 : String) (f1 : Line1Fields)
    (f2 : Line2Fields) (s : String)
    (_h1 : parseLine1 l1 = some f1)
    (hs : sliceChars l2 26 33 = some s)
    (hdig : ∀ c ∈ trimChars s.toList, isDig c = true)
    (h2 : parseLine2 l2 = some f2) :
    0 ≤ (buildSatRec f1 f2).ecco ∧ (buildSatRec f1 f2).ecco < 1 := by
  obtain ⟨fi, fn, fe, fa, fm, fo, fr⟩ := f2
  unfold parseLine2 at h2
  rcases hI : (sliceChars l2 8 16).bind parseF64 with _ | inc
  · simp only [hI] at h2
    exact Option.noConfusion h2
  simp only [hI] at h2
  rcases hN : (sliceChars l2 17 25).bind parseF64 with _ | node
  · simp only [hN] at h2
    exact Option.noConfusion h2
  simp only [hN] at h2
  simp only [hs] at h2
  simp only [parseF64_zero_dot (trimChars s.toList) hdig] at h2
  rcases hA : (sliceChars l2 34 42).bind parseF64 with _ | argp
  · simp only [hA] at h2
    exact Option.noConfusion h2
  simp only [hA] at h2
  rcases hM : (sliceChars l2 43 51).bind parseF64 with _ | mo2
  · simp only [hM] at h2
    exact Option.noConfusion h2
  simp only [hM] at h2
  rcases hO : (sliceChars l2 53 63).bind parseF64 with _ | no2
  · simp only [hO] at h2
    exact Option.noConfusion h2
  simp only [hO] at h2
  rcases hR : (sliceChars l2 63 68).bind parseU64 with _ | rev
  · simp only [hR] at h2
    exact Option.noConfusion h2
  simp only [hR] at h2
  injection h2 with h3
  injection h3 with e1 e2 e3 e4 e5 e6 e7
  subst e3
  refine ⟨?_, ?_⟩
  · show (0 : ℚ) ≤ 0 + (digitsToNat (trimChars s.toList) : ℚ) / 10 ^ (trimChars s.toList).length
    positivity
  · show (0 : ℚ) + (digitsToNat (trimChars s.toList) : ℚ) / 10 ^ (trimChars s.toList).length < 1
    rw [zero_add, div_lt_one (by positivity)]
    exact_mod_cast digitsToNat_lt hdig

/-- C5 (witness): the concrete line 2 carries the all-digit eccentricity
field `0006703`, and the stored eccentricity (0.0006703) lies in [0, 1). -/
theorem parseLine2_digit_ecc_in_unit_interval_witness :
    0 ≤ (buildSatRec tleFields1 tleFields2).ecco ∧ (buildSatRec tleFields1 tleFields2).ecco < 1 :=
  parseLine2_digit_ecc_in_unit_interval tleLine1 tleLine2 tleFields1 tleFields2
    "0006703" rfl rfl (by decide) rfl
